import Mathlib

/-!
# File-info trap handlers of `toolbox/os_fileinfo.cpp`

A shallow embedding of `rforksize`, `OS::GetFileInfo`, `OS::SetFileInfo` and
`OS::HGetFileInfo`.

* Guest memory is a map from byte addresses to bytes; the word/long accessors
  are big-endian, as on the emulated 68k.
* Everything the handlers call outside this translation unit (Pascal-string
  decoding, the path resolver, `stat`, the extended-attribute queries, the
  Finder-info and file-date utilities, the errno translator, `UnixToMac`, the
  constant `MacOS::bdNamErr`) is a field of `Env`.  Each of them is called at
  most once per handler invocation, so a function of the call's arguments
  describes any behaviour the host can show during one call.
* A handler yields an `Outcome`: the value it returns (or the status it exits
  with), the guest memory it leaves, and the ordered list of collaborator
  calls it made.  `ToolBox::Log` only prints and is left out.
-/

namespace OSFileInfo

/-- Guest memory: byte address to byte value. -/
abbrev Mem := Nat → Nat

/-- Conversion of a value to `uint16_t`. -/
def toU16 (v : Int) : Nat := (v % 65536).toNat

/-- Conversion of a value to `uint32_t`. -/
def toU32 (v : Int) : Nat := (v % 4294967296).toNat

/-- Conversion of a `uint16_t` to `int16_t`. -/
def toS16 (w : Nat) : Int :=
  if w % 65536 < 32768 then ((w % 65536 : Nat) : Int) else ((w % 65536 : Nat) : Int) - 65536

/-- Sum `parm + offset` computed in `uint32_t`. -/
def addr (parm off : Nat) : Nat := (parm + off) % 4294967296

/-- Modelled from the spec: `memoryReadByte` of the guest memory bridge
(cpu/fmem.h is not part of the sources at hand). -/
def memoryReadByte (address : Nat) (m : Mem) : Nat := m address % 256

/-- Modelled from the spec: `memoryReadWord` of the guest memory bridge,
big-endian 16-bit read. -/
def memoryReadWord (address : Nat) (m : Mem) : Nat :=
  memoryReadByte address m * 256 + memoryReadByte (address + 1) m

/-- Modelled from the spec: `memoryReadLong` of the guest memory bridge,
big-endian 32-bit read. -/
def memoryReadLong (address : Nat) (m : Mem) : Nat :=
  memoryReadByte address m * 16777216 + memoryReadByte (address + 1) m * 65536
    + memoryReadByte (address + 2) m * 256 + memoryReadByte (address + 3) m

/-- Modelled from the spec: `memoryWriteByte` of the guest memory bridge
(argument order as in the source: data first, then address). -/
def memoryWriteByte (data address : Nat) (m : Mem) : Mem :=
  fun a => if a = address then data % 256 else m a

/-- Modelled from the spec: `memoryWriteWord` of the guest memory bridge,
big-endian 16-bit write. -/
def memoryWriteWord (data address : Nat) (m : Mem) : Mem :=
  memoryWriteByte data (address + 1) (memoryWriteByte (data / 256) address m)

/-- Modelled from the spec: `memoryWriteLong` of the guest memory bridge,
big-endian 32-bit write. -/
def memoryWriteLong (data address : Nat) (m : Mem) : Mem :=
  memoryWriteByte data (address + 3)
    (memoryWriteByte (data / 256) (address + 2)
      (memoryWriteByte (data / 65536) (address + 1)
        (memoryWriteByte (data / 16777216) address m)))

/-- Modelled from the spec: a store through `memoryPointer(address)`, the host
pointer into guest memory: the bytes `bs` land at `address`, `address + 1`, ... -/
def storeBytes (address : Nat) (bs : List Nat) (m : Mem) : Mem :=
  fun a =>
    if address ≤ a then
      match bs.get? (a - address) with
      | some b => b % 256
      | none => m a
    else m a

/-- Modelled from the spec: what a callee sees through `memoryPointer(address)`:
the byte at each offset from the pointer. -/
def memoryPointer (address : Nat) (m : Mem) : Nat → Nat :=
  fun i => memoryReadByte (address + i) m

/-- The fields of `struct stat` the handlers read.  `st_birthtime` is what the
source reads under that name (the preprocessor maps it to `st_mtime` on hosts
without 64-bit inodes). -/
structure Stat where
  st_size : Int
  st_birthtime : Int
  st_mtime : Int

/-- Result of `::stat(path, &st)`: the return value, the buffer it filled and
the `errno` it left. -/
structure StatResult where
  rv : Int
  st : Stat
  errno : Nat

/-- Result of `Internal::GetFinderInfo(path, pointer, extended)`: its status
and the bytes it stored through the pointer. -/
structure FinderInfoResult where
  rv : Int
  info : List Nat

/-- The collaborators outside `os_fileinfo.cpp`, as parameters. -/
structure Env where
  bdNamErr : Int
  ReadPString : Mem → Nat → Bool → String
  ExpandPath : String → Nat → String
  stat : String → StatResult
  macos_error_from_errno : Nat → Int
  GetFinderInfo : String → Bool → FinderInfoResult
  SetFinderInfo : String → (Nat → Nat) → Bool → Int
  SetFileDates : String → Nat → Nat → Nat → Int
  UnixToMac : Int → Int
  getxattr : String → Int
  fgetxattr : Int → Int

/-- One entry of the call log. -/
inductive HostCall where
  | ReadPString (address : Nat) (fname : Bool)
  | ExpandPath (name : String) (dirID : Nat)
  | stat (path : String)
  | macos_error_from_errno (errno : Nat)
  | GetFinderInfo (path : String) (address : Nat) (extended : Bool)
  | SetFinderInfo (path : String) (address : Nat) (extended : Bool)
  | SetFileDates (path : String) (created modified reserved : Nat)
  | getxattr (path : String)
  | fgetxattr (fd : Int)
  | fprintf_stderr (msg : String)
  deriving DecidableEq

/-- How a handler invocation ends. -/
inductive Outcome where
  | returned (d0 : Nat) (mem : Mem) (trace : List HostCall)
  | exited (status : Nat) (mem : Mem) (trace : List HostCall)

/-- Value handed back to the dispatcher, if the handler returned. -/
def Outcome.result : Outcome → Option Nat
  | .returned d0 _ _ => some d0
  | .exited _ _ _ => none

/-- Guest memory when the handler stopped. -/
def Outcome.mem : Outcome → Mem
  | .returned _ m _ => m
  | .exited _ m _ => m

/-- Collaborator calls made, in order. -/
def Outcome.trace : Outcome → List HostCall
  | .returned _ _ t => t
  | .exited _ _ t => t

/-- Whether a logged call reaches the host filesystem, the path resolver or the
metadata bridge (everything except the diagnostic print). -/
def HostCall.isHostAccess : HostCall → Bool
  | .fprintf_stderr _ => false
  | _ => true

/-! ## Field offsets (the `enum`s of the three handlers are identical) -/

def _ioResult : Nat := 16
def _ioNamePtr : Nat := 18
def _ioVRefNum : Nat := 22
def _ioFRefNum : Nat := 24
def _ioFVersNum : Nat := 26
def _filler1 : Nat := 27
def _ioFDirIndex : Nat := 28
def _ioFlAttrib : Nat := 30
def _ioFlVersNum : Nat := 31
def _ioFlFndrInfo : Nat := 32
def _ioFlNum : Nat := 48
def _ioFlStBlk : Nat := 52
def _ioFlLgLen : Nat := 54
def _ioFlPyLen : Nat := 58
def _ioFlRStBlk : Nat := 62
def _ioFlRLgLen : Nat := 64
def _ioFlRPyLen : Nat := 68
def _ioFlCrDat : Nat := 72
def _ioFlMdDat : Nat := 76
def _ioDirID : Nat := 48

/-! ## `rforksize` -/

/-- Source function `uint32_t rforksize(const std::string &path)`; `rv` is what
`getxattr` returns for the resource-fork attribute (an `ssize_t`). -/
def rforksize (env : Env) (path : String) : Nat :=
  let rv := env.getxattr path
  if rv < 0 then 0 else toU32 rv

/-- Source function `uint32_t rforksize(int fd)`; `rv` is what `fgetxattr`
returns for the resource-fork attribute (an `ssize_t`). -/
def rforksize_fd (env : Env) (fd : Int) : Nat :=
  let rv := env.fgetxattr fd
  if rv < 0 then 0 else toU32 rv

/-! ## `OS::GetFileInfo` -/

/-- Guest memory after the successful branch of `GetFileInfo` (source lines
179 to 212), the writes in source order. -/
def GetFileInfo_fill (env : Env) (sname : String) (st : Stat) (parm : Nat) (mem : Mem) : Mem :=
  let m1 := storeBytes (addr parm _ioFlFndrInfo) (env.GetFinderInfo sname false).info mem
  let m2 := memoryWriteWord 0 (addr parm _ioFRefNum) m1
  let m3 := memoryWriteByte 0 (addr parm _ioFlAttrib) m2
  let m4 := memoryWriteByte 0 (addr parm _ioFlVersNum) m3
  let m5 := memoryWriteLong 0 (addr parm _ioFlNum) m4
  let m6 := memoryWriteWord 0 (addr parm _ioFlStBlk) m5
  let m7 := memoryWriteLong (toU32 st.st_size) (addr parm _ioFlLgLen) m6
  let m8 := memoryWriteLong (toU32 st.st_size) (addr parm _ioFlPyLen) m7
  let m9 := memoryWriteLong (toU32 (env.UnixToMac st.st_birthtime)) (addr parm _ioFlCrDat) m8
  let m10 := memoryWriteLong (toU32 (env.UnixToMac st.st_mtime)) (addr parm _ioFlMdDat) m9
  let rf := rforksize env sname
  let m11 := memoryWriteWord 0 (addr parm _ioFlRStBlk) m10
  let m12 := memoryWriteLong rf (addr parm _ioFlRLgLen) m11
  let m13 := memoryWriteLong rf (addr parm _ioFlRPyLen) m12
  memoryWriteWord 0 (addr parm _ioResult) m13

/-- Source function `uint16_t OS::GetFileInfo(uint16_t trap)`; `parm` is
`cpuGetAReg(0)`. -/
def GetFileInfo (env : Env) (trap parm : Nat) (mem : Mem) : Outcome :=
  let ioNamePtr := memoryReadLong (addr parm _ioNamePtr) mem
  let ioFDirIndex := toS16 (memoryReadWord (addr parm _ioFDirIndex) mem)
  if ioFDirIndex ≤ 0 then
    if ioNamePtr = 0 then
      let d0 := toU16 env.bdNamErr
      .returned d0 (memoryWriteWord d0 (addr parm _ioResult) mem) []
    else
      let pname := env.ReadPString mem ioNamePtr true
      let ioDirID := memoryReadLong (addr parm _ioDirID) mem
      let sname := if trap = 0xa20c then env.ExpandPath pname ioDirID else pname
      let tr : List HostCall :=
        if trap = 0xa20c then [.ReadPString ioNamePtr true, .ExpandPath pname ioDirID]
        else [.ReadPString ioNamePtr true]
      let sr := env.stat sname
      if sr.rv < 0 then
        let d0 := toU16 (env.macos_error_from_errno sr.errno)
        .returned d0 (memoryWriteWord d0 (addr parm _ioResult) mem)
          (tr ++ [.stat sname, .macos_error_from_errno sr.errno])
      else
        .returned 0 (GetFileInfo_fill env sname sr.st parm mem)
          (tr ++ [.stat sname, .GetFinderInfo sname (addr parm _ioFlFndrInfo) false,
                  .getxattr sname])
  else
    .exited 1 mem [.fprintf_stderr "GetFileInfo -- ioFDirIndex not yet supported\n"]

/-- Source function `uint16_t OS::HGetFileInfo(uint16_t trap)`. -/
def HGetFileInfo (env : Env) (trap parm : Nat) (mem : Mem) : Outcome :=
  GetFileInfo env trap parm mem

/-! ## `OS::SetFileInfo` -/

/-- Source function `uint16_t OS::SetFileInfo(uint16_t trap)`; `parm` is
`cpuGetAReg(0)`. -/
def SetFileInfo (env : Env) (trap parm : Nat) (mem : Mem) : Outcome :=
  let ioNamePtr := memoryReadLong (addr parm _ioNamePtr) mem
  if ioNamePtr = 0 then
    let d0 := toU16 env.bdNamErr
    .returned d0 (memoryWriteWord d0 (addr parm _ioResult) mem) []
  else
    let pname := env.ReadPString mem ioNamePtr true
    let ioDirID := memoryReadLong (addr parm _ioDirID) mem
    let sname := if trap = 0xa20d then env.ExpandPath pname ioDirID else pname
    let tr : List HostCall :=
      if trap = 0xa20d then [.ReadPString ioNamePtr true, .ExpandPath pname ioDirID]
      else [.ReadPString ioNamePtr true]
    let sr := env.stat sname
    if sr.rv < 0 then
      let d0 := toU16 (env.macos_error_from_errno sr.errno)
      .returned d0 (memoryWriteWord d0 (addr parm _ioResult) mem)
        (tr ++ [.stat sname, .macos_error_from_errno sr.errno])
    else
      let d0 := toU16 (env.SetFinderInfo sname (memoryPointer (addr parm 32) mem) false)
      if d0 = 0 then
        let cr := memoryReadLong (addr parm _ioFlCrDat) mem
        let md := memoryReadLong (addr parm _ioFlMdDat) mem
        let d0 := toU16 (env.SetFileDates sname cr md 0)
        .returned d0 (memoryWriteWord d0 (addr parm _ioResult) mem)
          (tr ++ [.stat sname, .SetFinderInfo sname (addr parm 32) false,
                  .SetFileDates sname cr md 0])
      else
        .returned d0 (memoryWriteWord d0 (addr parm _ioResult) mem)
          (tr ++ [.stat sname, .SetFinderInfo sname (addr parm 32) false])


/-- The host path a by-name `GetFileInfo` call queries (`sname` at source line
168): the decoded name, expanded with the directory id under trap 0xa20c. -/
def GetFileInfo_path (env : Env) (trap parm : Nat) (mem : Mem) : String :=
  let pname := env.ReadPString mem (memoryReadLong (addr parm _ioNamePtr) mem) true
  if trap = 0xa20c then env.ExpandPath pname (memoryReadLong (addr parm _ioDirID) mem)
  else pname

/-- The calls a by-name `GetFileInfo` logs while it resolves the name. -/
def GetFileInfo_resolve (env : Env) (trap parm : Nat) (mem : Mem) : List HostCall :=
  let ioNamePtr := memoryReadLong (addr parm _ioNamePtr) mem
  let pname := env.ReadPString mem ioNamePtr true
  if trap = 0xa20c then
    [.ReadPString ioNamePtr true,
     .ExpandPath pname (memoryReadLong (addr parm _ioDirID) mem)]
  else [.ReadPString ioNamePtr true]

/-- The host path a `SetFileInfo` call with a name works on (`sname` at source
line 299): the decoded name, expanded with the directory id under trap 0xa20d. -/
def SetFileInfo_path (env : Env) (trap parm : Nat) (mem : Mem) : String :=
  let pname := env.ReadPString mem (memoryReadLong (addr parm _ioNamePtr) mem) true
  if trap = 0xa20d then env.ExpandPath pname (memoryReadLong (addr parm _ioDirID) mem)
  else pname

/-- The calls a `SetFileInfo` with a name logs while it resolves the name. -/
def SetFileInfo_resolve (env : Env) (trap parm : Nat) (mem : Mem) : List HostCall :=
  let ioNamePtr := memoryReadLong (addr parm _ioNamePtr) mem
  let pname := env.ReadPString mem ioNamePtr true
  if trap = 0xa20d then
    [.ReadPString ioNamePtr true,
     .ExpandPath pname (memoryReadLong (addr parm _ioDirID) mem)]
  else [.ReadPString ioNamePtr true]

/-- The result the specification words for `SetFileInfo`: the code of the first
failing step among (1) name pointer 0, (2) host existence check, (3) Finder
info assignment, (4) date assignment; the code of step (4) is 0 when no step
fails. -/
def SetFileInfo_firstFailure (env : Env) (trap parm : Nat) (mem : Mem) : Nat :=
  let path := SetFileInfo_path env trap parm mem
  if memoryReadLong (addr parm 18) mem = 0 then toU16 env.bdNamErr
  else if (env.stat path).rv < 0 then toU16 (env.macos_error_from_errno (env.stat path).errno)
  else if toU16 (env.SetFinderInfo path (memoryPointer (addr parm 32) mem) false) ≠ 0 then
    toU16 (env.SetFinderInfo path (memoryPointer (addr parm 32) mem) false)
  else
    toU16 (env.SetFileDates path (memoryReadLong (addr parm 72) mem)
      (memoryReadLong (addr parm 76) mem) 0)

/-- Logged call of the Finder-info read bridge. -/
def HostCall.isGetFinderInfo : HostCall → Bool
  | .GetFinderInfo _ _ _ => true
  | _ => false

/-- Logged extended-attribute query of the resource-fork probe. -/
def HostCall.isRforkProbe : HostCall → Bool
  | .getxattr _ => true
  | .fgetxattr _ => true
  | _ => false

/-- Logged call of the Finder-info write bridge. -/
def HostCall.isSetFinderInfo : HostCall → Bool
  | .SetFinderInfo _ _ _ => true
  | _ => false

/-- Logged call of the file-date write bridge. -/
def HostCall.isSetFileDates : HostCall → Bool
  | .SetFileDates _ _ _ _ => true
  | _ => false

/-! ## Sample hosts and parameter blocks -/

/-- A host on which every path names a 1024-byte file with a 256-byte resource
stream and no stored Finder info. -/
def sampleEnv : Env where
  bdNamErr := -37
  ReadPString := fun _ _ _ => "report.txt"
  ExpandPath := fun name _ => name
  stat := fun _ => { rv := 0, st := { st_size := 1024, st_birthtime := 100, st_mtime := 200 },
                     errno := 0 }
  macos_error_from_errno := fun e => if e = 2 then -43 else -36
  GetFinderInfo := fun _ _ => { rv := 0, info := List.replicate 32 0 }
  SetFinderInfo := fun _ _ _ => 0
  SetFileDates := fun _ _ _ _ => 0
  UnixToMac := fun t => t + 2082844800
  getxattr := fun _ => 256
  fgetxattr := fun _ => 256

/-- A host on which no path exists: `stat` fails with `ENOENT` (2). -/
def missingEnv : Env :=
  { sampleEnv with
    stat := fun _ => { rv := -1, st := { st_size := 0, st_birthtime := 0, st_mtime := 0 },
                       errno := 2 } }

/-- Guest memory filled with the sentinel byte 0xAA: read at any parameter
block, the name pointer is 0xAAAAAAAA and the directory index is 0xAAAA,
negative as a signed word. -/
def sentinelMem : Mem := fun _ => 0xAA

/-- Sentinel memory whose parameter block at 1000 has name pointer 0. -/
def noNameMem : Mem := fun a => if 1018 ≤ a ∧ a < 1022 then 0 else 0xAA

/-- Sentinel memory whose parameter block at 1000 has name pointer 0 and
directory index 1. -/
def indexedMem : Mem :=
  fun a => if 1018 ≤ a ∧ a < 1022 then 0 else if a = 1028 then 0 else if a = 1029 then 1 else 0xAA

/-- A host like `sampleEnv` whose Finder-info assignment fails with code -36. -/
def finderFailEnv : Env := { sampleEnv with SetFinderInfo := fun _ _ _ => -36 }


/-! ## Memory lemmas -/

theorem toU16_lt (v : Int) : toU16 v < 65536 := by
  unfold toU16; omega

theorem toU32_lt (v : Int) : toU32 v < 4294967296 := by
  unfold toU32; omega

theorem toU32_of_range (v : Int) (h0 : 0 ≤ v) (h1 : v < 4294967296) :
    (toU32 v : Int) = v := by
  unfold toU32; omega

theorem memoryWriteWord_other (d a : Nat) (m : Mem) (x : Nat)
    (h0 : x ≠ a) (h1 : x ≠ a + 1) : memoryWriteWord d a m x = m x := by
  simp [memoryWriteWord, memoryWriteByte, h0, h1]

theorem memoryReadWord_memoryWriteWord (d a : Nat) (m : Mem) (h : d < 65536) :
    memoryReadWord a (memoryWriteWord d a m) = d := by
  simp [memoryReadWord, memoryReadByte, memoryWriteWord, memoryWriteByte]
  omega

theorem memoryWriteByte_other (d a : Nat) (m : Mem) (x : Nat) (h : x ≠ a) :
    memoryWriteByte d a m x = m x := by
  simp [memoryWriteByte, h]

theorem memoryWriteLong_other (d a : Nat) (m : Mem) (x : Nat)
    (h : x < a ∨ a + 4 ≤ x) : memoryWriteLong d a m x = m x := by
  have h0 : x ≠ a := by omega
  have h1 : x ≠ a + 1 := by omega
  have h2 : x ≠ a + 2 := by omega
  have h3 : x ≠ a + 3 := by omega
  simp [memoryWriteLong, memoryWriteByte, h0, h1, h2, h3]

theorem memoryReadByte_congr (a : Nat) (m1 m2 : Mem) (h : m1 a = m2 a) :
    memoryReadByte a m1 = memoryReadByte a m2 := by
  simp [memoryReadByte, h]

theorem memoryReadWord_congr (a : Nat) (m1 m2 : Mem)
    (h : ∀ x, a ≤ x → x < a + 2 → m1 x = m2 x) :
    memoryReadWord a m1 = memoryReadWord a m2 := by
  simp only [memoryReadWord, memoryReadByte]
  rw [h a (by omega) (by omega), h (a + 1) (by omega) (by omega)]

theorem memoryReadLong_congr (a : Nat) (m1 m2 : Mem)
    (h : ∀ x, a ≤ x → x < a + 4 → m1 x = m2 x) :
    memoryReadLong a m1 = memoryReadLong a m2 := by
  simp only [memoryReadLong, memoryReadByte]
  rw [h a (by omega) (by omega), h (a + 1) (by omega) (by omega),
    h (a + 2) (by omega) (by omega), h (a + 3) (by omega) (by omega)]

theorem memoryReadLong_memoryWriteLong (d a : Nat) (m : Mem) (h : d < 4294967296) :
    memoryReadLong a (memoryWriteLong d a m) = d := by
  simp [memoryReadLong, memoryReadByte, memoryWriteLong, memoryWriteByte]
  omega

theorem memoryReadByte_memoryWriteByte (d a : Nat) (m : Mem) (h : d < 256) :
    memoryReadByte a (memoryWriteByte d a m) = d := by
  simp [memoryReadByte, memoryWriteByte]
  omega

theorem readByte_writeByte (d a b : Nat) (m : Mem) (h : a ≠ b) :
    memoryReadByte a (memoryWriteByte d b m) = memoryReadByte a m :=
  memoryReadByte_congr _ _ _ (memoryWriteByte_other _ _ _ _ h)

theorem readByte_writeWord (d a b : Nat) (m : Mem) (h : a < b ∨ b + 2 ≤ a) :
    memoryReadByte a (memoryWriteWord d b m) = memoryReadByte a m :=
  memoryReadByte_congr _ _ _ (memoryWriteWord_other _ _ _ _ (by omega) (by omega))

theorem readByte_writeLong (d a b : Nat) (m : Mem) (h : a < b ∨ b + 4 ≤ a) :
    memoryReadByte a (memoryWriteLong d b m) = memoryReadByte a m :=
  memoryReadByte_congr _ _ _ (memoryWriteLong_other _ _ _ _ h)

theorem readWord_writeByte (d a b : Nat) (m : Mem) (h : b < a ∨ a + 2 ≤ b) :
    memoryReadWord a (memoryWriteByte d b m) = memoryReadWord a m :=
  memoryReadWord_congr _ _ _ fun x _ _ => memoryWriteByte_other _ _ _ _ (by omega)

theorem readWord_writeWord (d a b : Nat) (m : Mem) (h : a + 2 ≤ b ∨ b + 2 ≤ a) :
    memoryReadWord a (memoryWriteWord d b m) = memoryReadWord a m :=
  memoryReadWord_congr _ _ _ fun x _ _ =>
    memoryWriteWord_other _ _ _ _ (by omega) (by omega)

theorem readWord_writeLong (d a b : Nat) (m : Mem) (h : a + 2 ≤ b ∨ b + 4 ≤ a) :
    memoryReadWord a (memoryWriteLong d b m) = memoryReadWord a m :=
  memoryReadWord_congr _ _ _ fun x _ _ => memoryWriteLong_other _ _ _ _ (by omega)

theorem readLong_writeByte (d a b : Nat) (m : Mem) (h : b < a ∨ a + 4 ≤ b) :
    memoryReadLong a (memoryWriteByte d b m) = memoryReadLong a m :=
  memoryReadLong_congr _ _ _ fun x _ _ => memoryWriteByte_other _ _ _ _ (by omega)

theorem readLong_writeWord (d a b : Nat) (m : Mem) (h : a + 4 ≤ b ∨ b + 2 ≤ a) :
    memoryReadLong a (memoryWriteWord d b m) = memoryReadLong a m :=
  memoryReadLong_congr _ _ _ fun x _ _ =>
    memoryWriteWord_other _ _ _ _ (by omega) (by omega)

theorem readLong_writeLong (d a b : Nat) (m : Mem) (h : a + 4 ≤ b ∨ b + 4 ≤ a) :
    memoryReadLong a (memoryWriteLong d b m) = memoryReadLong a m :=
  memoryReadLong_congr _ _ _ fun x _ _ => memoryWriteLong_other _ _ _ _ (by omega)

theorem rforksize_lt (env : Env) (path : String) : rforksize env path < 4294967296 := by
  simp only [rforksize]
  split
  · omega
  · exact toU32_lt _

/-! ## What the successful branch leaves in each field -/

theorem fill_result (env : Env) (sname : String) (st : Stat) (parm : Nat) (mem : Mem) :
    memoryReadWord (addr parm 16) (GetFileInfo_fill env sname st parm mem) = 0 := by
  simp only [GetFileInfo_fill, _ioResult]
  exact memoryReadWord_memoryWriteWord _ _ _ (by omega)

theorem fill_ioFRefNum (env : Env) (sname : String) (st : Stat) (parm : Nat) (mem : Mem) :
    memoryReadWord (addr parm 24) (GetFileInfo_fill env sname st parm mem) = 0 := by
  simp only [GetFileInfo_fill, _ioResult, _ioFRefNum,
    _ioFlAttrib, _ioFlVersNum, _ioFlFndrInfo, _ioFlNum, _ioFlStBlk, _ioFlLgLen, _ioFlPyLen,
    _ioFlRStBlk, _ioFlRLgLen, _ioFlRPyLen, _ioFlCrDat, _ioFlMdDat]
  rw [readWord_writeWord, readWord_writeLong, readWord_writeLong, readWord_writeWord,
    readWord_writeLong, readWord_writeLong, readWord_writeLong, readWord_writeLong,
    readWord_writeWord, readWord_writeLong, readWord_writeByte, readWord_writeByte,
    memoryReadWord_memoryWriteWord _ _ _ (by omega)]
  all_goals (unfold addr; omega)

theorem fill_ioFlAttrib (env : Env) (sname : String) (st : Stat) (parm : Nat) (mem : Mem) :
    memoryReadByte (addr parm 30) (GetFileInfo_fill env sname st parm mem) = 0 := by
  simp only [GetFileInfo_fill, _ioResult, _ioFRefNum,
    _ioFlAttrib, _ioFlVersNum, _ioFlFndrInfo, _ioFlNum, _ioFlStBlk, _ioFlLgLen, _ioFlPyLen,
    _ioFlRStBlk, _ioFlRLgLen, _ioFlRPyLen, _ioFlCrDat, _ioFlMdDat]
  rw [readByte_writeWord, readByte_writeLong, readByte_writeLong, readByte_writeWord,
    readByte_writeLong, readByte_writeLong, readByte_writeLong, readByte_writeLong,
    readByte_writeWord, readByte_writeLong, readByte_writeByte,
    memoryReadByte_memoryWriteByte _ _ _ (by omega)]
  all_goals (unfold addr; omega)

theorem fill_ioFlVersNum (env : Env) (sname : String) (st : Stat) (parm : Nat) (mem : Mem) :
    memoryReadByte (addr parm 31) (GetFileInfo_fill env sname st parm mem) = 0 := by
  simp only [GetFileInfo_fill, _ioResult, _ioFRefNum,
    _ioFlAttrib, _ioFlVersNum, _ioFlFndrInfo, _ioFlNum, _ioFlStBlk, _ioFlLgLen, _ioFlPyLen,
    _ioFlRStBlk, _ioFlRLgLen, _ioFlRPyLen, _ioFlCrDat, _ioFlMdDat]
  rw [readByte_writeWord, readByte_writeLong, readByte_writeLong, readByte_writeWord,
    readByte_writeLong, readByte_writeLong, readByte_writeLong, readByte_writeLong,
    readByte_writeWord, readByte_writeLong,
    memoryReadByte_memoryWriteByte _ _ _ (by omega)]
  all_goals (unfold addr; omega)

theorem fill_ioFlNum (env : Env) (sname : String) (st : Stat) (parm : Nat) (mem : Mem) :
    memoryReadLong (addr parm 48) (GetFileInfo_fill env sname st parm mem) = 0 := by
  simp only [GetFileInfo_fill, _ioResult, _ioFRefNum,
    _ioFlAttrib, _ioFlVersNum, _ioFlFndrInfo, _ioFlNum, _ioFlStBlk, _ioFlLgLen, _ioFlPyLen,
    _ioFlRStBlk, _ioFlRLgLen, _ioFlRPyLen, _ioFlCrDat, _ioFlMdDat]
  rw [readLong_writeWord, readLong_writeLong, readLong_writeLong, readLong_writeWord,
    readLong_writeLong, readLong_writeLong, readLong_writeLong, readLong_writeLong,
    readLong_writeWord, memoryReadLong_memoryWriteLong _ _ _ (by omega)]
  all_goals (unfold addr; omega)

theorem fill_ioFlStBlk (env : Env) (sname : String) (st : Stat) (parm : Nat) (mem : Mem) :
    memoryReadWord (addr parm 52) (GetFileInfo_fill env sname st parm mem) = 0 := by
  simp only [GetFileInfo_fill, _ioResult, _ioFRefNum,
    _ioFlAttrib, _ioFlVersNum, _ioFlFndrInfo, _ioFlNum, _ioFlStBlk, _ioFlLgLen, _ioFlPyLen,
    _ioFlRStBlk, _ioFlRLgLen, _ioFlRPyLen, _ioFlCrDat, _ioFlMdDat]
  rw [readWord_writeWord, readWord_writeLong, readWord_writeLong, readWord_writeWord,
    readWord_writeLong, readWord_writeLong, readWord_writeLong, readWord_writeLong,
    memoryReadWord_memoryWriteWord _ _ _ (by omega)]
  all_goals (unfold addr; omega)

theorem fill_ioFlLgLen (env : Env) (sname : String) (st : Stat) (parm : Nat) (mem : Mem) :
    memoryReadLong (addr parm 54) (GetFileInfo_fill env sname st parm mem)
      = toU32 st.st_size := by
  simp only [GetFileInfo_fill, _ioResult, _ioFRefNum,
    _ioFlAttrib, _ioFlVersNum, _ioFlFndrInfo, _ioFlNum, _ioFlStBlk, _ioFlLgLen, _ioFlPyLen,
    _ioFlRStBlk, _ioFlRLgLen, _ioFlRPyLen, _ioFlCrDat, _ioFlMdDat]
  rw [readLong_writeWord, readLong_writeLong, readLong_writeLong, readLong_writeWord,
    readLong_writeLong, readLong_writeLong, readLong_writeLong,
    memoryReadLong_memoryWriteLong _ _ _ (toU32_lt _)]
  all_goals (unfold addr; omega)

theorem fill_ioFlPyLen (env : Env) (sname : String) (st : Stat) (parm : Nat) (mem : Mem) :
    memoryReadLong (addr parm 58) (GetFileInfo_fill env sname st parm mem)
      = toU32 st.st_size := by
  simp only [GetFileInfo_fill, _ioResult, _ioFRefNum,
    _ioFlAttrib, _ioFlVersNum, _ioFlFndrInfo, _ioFlNum, _ioFlStBlk, _ioFlLgLen, _ioFlPyLen,
    _ioFlRStBlk, _ioFlRLgLen, _ioFlRPyLen, _ioFlCrDat, _ioFlMdDat]
  rw [readLong_writeWord, readLong_writeLong, readLong_writeLong, readLong_writeWord,
    readLong_writeLong, readLong_writeLong,
    memoryReadLong_memoryWriteLong _ _ _ (toU32_lt _)]
  all_goals (unfold addr; omega)

theorem fill_ioFlRStBlk (env : Env) (sname : String) (st : Stat) (parm : Nat) (mem : Mem) :
    memoryReadWord (addr parm 62) (GetFileInfo_fill env sname st parm mem) = 0 := by
  simp only [GetFileInfo_fill, _ioResult, _ioFRefNum,
    _ioFlAttrib, _ioFlVersNum, _ioFlFndrInfo, _ioFlNum, _ioFlStBlk, _ioFlLgLen, _ioFlPyLen,
    _ioFlRStBlk, _ioFlRLgLen, _ioFlRPyLen, _ioFlCrDat, _ioFlMdDat]
  rw [readWord_writeWord, readWord_writeLong, readWord_writeLong,
    memoryReadWord_memoryWriteWord _ _ _ (by omega)]
  all_goals (unfold addr; omega)

theorem fill_ioFlRLgLen (env : Env) (sname : String) (st : Stat) (parm : Nat) (mem : Mem) :
    memoryReadLong (addr parm 64) (GetFileInfo_fill env sname st parm mem)
      = rforksize env sname := by
  simp only [GetFileInfo_fill, _ioResult, _ioFRefNum,
    _ioFlAttrib, _ioFlVersNum, _ioFlFndrInfo, _ioFlNum, _ioFlStBlk, _ioFlLgLen, _ioFlPyLen,
    _ioFlRStBlk, _ioFlRLgLen, _ioFlRPyLen, _ioFlCrDat, _ioFlMdDat]
  rw [readLong_writeWord, readLong_writeLong,
    memoryReadLong_memoryWriteLong _ _ _ (rforksize_lt _ _)]
  all_goals (unfold addr; omega)

theorem fill_ioFlRPyLen (env : Env) (sname : String) (st : Stat) (parm : Nat) (mem : Mem) :
    memoryReadLong (addr parm 68) (GetFileInfo_fill env sname st parm mem)
      = rforksize env sname := by
  simp only [GetFileInfo_fill, _ioResult, _ioFRefNum,
    _ioFlAttrib, _ioFlVersNum, _ioFlFndrInfo, _ioFlNum, _ioFlStBlk, _ioFlLgLen, _ioFlPyLen,
    _ioFlRStBlk, _ioFlRLgLen, _ioFlRPyLen, _ioFlCrDat, _ioFlMdDat]
  rw [readLong_writeWord, memoryReadLong_memoryWriteLong _ _ _ (rforksize_lt _ _)]
  all_goals (unfold addr; omega)

theorem fill_ioFlCrDat (env : Env) (sname : String) (st : Stat) (parm : Nat) (mem : Mem) :
    memoryReadLong (addr parm 72) (GetFileInfo_fill env sname st parm mem)
      = toU32 (env.UnixToMac st.st_birthtime) := by
  simp only [GetFileInfo_fill, _ioResult, _ioFRefNum,
    _ioFlAttrib, _ioFlVersNum, _ioFlFndrInfo, _ioFlNum, _ioFlStBlk, _ioFlLgLen, _ioFlPyLen,
    _ioFlRStBlk, _ioFlRLgLen, _ioFlRPyLen, _ioFlCrDat, _ioFlMdDat]
  rw [readLong_writeWord, readLong_writeLong, readLong_writeLong, readLong_writeWord,
    readLong_writeLong, memoryReadLong_memoryWriteLong _ _ _ (toU32_lt _)]
  all_goals (unfold addr; omega)

theorem fill_ioFlMdDat (env : Env) (sname : String) (st : Stat) (parm : Nat) (mem : Mem) :
    memoryReadLong (addr parm 76) (GetFileInfo_fill env sname st parm mem)
      = toU32 (env.UnixToMac st.st_mtime) := by
  simp only [GetFileInfo_fill, _ioResult, _ioFRefNum,
    _ioFlAttrib, _ioFlVersNum, _ioFlFndrInfo, _ioFlNum, _ioFlStBlk, _ioFlLgLen, _ioFlPyLen,
    _ioFlRStBlk, _ioFlRLgLen, _ioFlRPyLen, _ioFlCrDat, _ioFlMdDat]
  rw [readLong_writeWord, readLong_writeLong, readLong_writeLong, readLong_writeWord,
    memoryReadLong_memoryWriteLong _ _ _ (toU32_lt _)]
  all_goals (unfold addr; omega)

/-- Below the Finder-info area the successful branch changes only the result
word (16, 17), the file reference number (24, 25), the attribute byte (30) and
the file version byte (31). -/
theorem fill_untouched (env : Env) (sname : String) (st : Stat) (parm : Nat) (mem : Mem)
    (hblk : parm + 80 ≤ 4294967296) (off : Nat)
    (hoff : off < 16 ∨ (18 ≤ off ∧ off < 24) ∨ (26 ≤ off ∧ off < 30)) :
    GetFileInfo_fill env sname st parm mem (addr parm off) = mem (addr parm off) := by
  simp only [GetFileInfo_fill, _ioResult, _ioFRefNum,
    _ioFlAttrib, _ioFlVersNum, _ioFlFndrInfo, _ioFlNum, _ioFlStBlk, _ioFlLgLen, _ioFlPyLen,
    _ioFlRStBlk, _ioFlRLgLen, _ioFlRPyLen, _ioFlCrDat, _ioFlMdDat]
  rw [memoryWriteWord_other, memoryWriteLong_other, memoryWriteLong_other,
    memoryWriteWord_other, memoryWriteLong_other, memoryWriteLong_other,
    memoryWriteLong_other, memoryWriteLong_other, memoryWriteWord_other,
    memoryWriteLong_other, memoryWriteByte_other, memoryWriteByte_other,
    memoryWriteWord_other]
  · have h : ¬ addr parm 32 ≤ addr parm off := by unfold addr; omega
    simp only [storeBytes, h, if_false]
  all_goals (unfold addr; omega)

/-- The first 16 bytes stored by the Finder-info bridge survive the later
writes of the successful branch. -/
theorem fill_finderInfo (env : Env) (sname : String) (st : Stat) (parm : Nat) (mem : Mem)
    (hblk : parm + 80 ≤ 4294967296) (i : Nat) (hi : i < 16) :
    GetFileInfo_fill env sname st parm mem (addr parm (32 + i))
      = storeBytes (addr parm 32) (env.GetFinderInfo sname false).info mem
          (addr parm 32 + i) := by
  have ha : addr parm (32 + i) = addr parm 32 + i := by unfold addr; omega
  rw [ha]
  simp only [GetFileInfo_fill, _ioResult, _ioFRefNum,
    _ioFlAttrib, _ioFlVersNum, _ioFlFndrInfo, _ioFlNum, _ioFlStBlk, _ioFlLgLen, _ioFlPyLen,
    _ioFlRStBlk, _ioFlRLgLen, _ioFlRPyLen, _ioFlCrDat, _ioFlMdDat]
  rw [memoryWriteWord_other, memoryWriteLong_other, memoryWriteLong_other,
    memoryWriteWord_other, memoryWriteLong_other, memoryWriteLong_other,
    memoryWriteLong_other, memoryWriteLong_other, memoryWriteWord_other,
    memoryWriteLong_other, memoryWriteByte_other, memoryWriteByte_other,
    memoryWriteWord_other]
  all_goals (unfold addr; omega)

/-- The successful branch of `GetFileInfo`, spelled out. -/
theorem GetFileInfo_success_eq (env : Env) (trap parm : Nat) (mem : Mem)
    (hidx : toS16 (memoryReadWord (addr parm 28) mem) ≤ 0)
    (hname : memoryReadLong (addr parm 18) mem ≠ 0)
    (hstat : ¬ (env.stat (GetFileInfo_path env trap parm mem)).rv < 0) :
    GetFileInfo env trap parm mem
      = .returned 0
          (GetFileInfo_fill env (GetFileInfo_path env trap parm mem)
            (env.stat (GetFileInfo_path env trap parm mem)).st parm mem)
          (GetFileInfo_resolve env trap parm mem ++
            [.stat (GetFileInfo_path env trap parm mem),
             .GetFinderInfo (GetFileInfo_path env trap parm mem) (addr parm 32) false,
             .getxattr (GetFileInfo_path env trap parm mem)]) := by
  simp only [GetFileInfo_path, GetFileInfo_resolve, _ioNamePtr, _ioDirID] at hstat ⊢
  simp only [GetFileInfo, _ioNamePtr, _ioFDirIndex, _ioDirID, _ioFlFndrInfo, hidx, hname,
    hstat, if_true, if_false]

/-- The branch of `GetFileInfo` taken when `stat` fails, spelled out. -/
theorem GetFileInfo_stat_failure_eq (env : Env) (trap parm : Nat) (mem : Mem)
    (hidx : toS16 (memoryReadWord (addr parm 28) mem) ≤ 0)
    (hname : memoryReadLong (addr parm 18) mem ≠ 0)
    (hstat : (env.stat (GetFileInfo_path env trap parm mem)).rv < 0) :
    GetFileInfo env trap parm mem
      = .returned
          (toU16 (env.macos_error_from_errno
            (env.stat (GetFileInfo_path env trap parm mem)).errno))
          (memoryWriteWord
            (toU16 (env.macos_error_from_errno
              (env.stat (GetFileInfo_path env trap parm mem)).errno))
            (addr parm 16) mem)
          (GetFileInfo_resolve env trap parm mem ++
            [.stat (GetFileInfo_path env trap parm mem),
             .macos_error_from_errno
               (env.stat (GetFileInfo_path env trap parm mem)).errno]) := by
  simp only [GetFileInfo_path, GetFileInfo_resolve, _ioNamePtr, _ioDirID] at hstat ⊢
  simp only [GetFileInfo, _ioNamePtr, _ioFDirIndex, _ioDirID, _ioResult, hidx, hname,
    hstat, if_true, if_false]

/-- The branch of `GetFileInfo` taken when no name is supplied, spelled out. -/
theorem GetFileInfo_no_name_eq (env : Env) (trap parm : Nat) (mem : Mem)
    (hidx : toS16 (memoryReadWord (addr parm 28) mem) ≤ 0)
    (hname : memoryReadLong (addr parm 18) mem = 0) :
    GetFileInfo env trap parm mem
      = .returned (toU16 env.bdNamErr)
          (memoryWriteWord (toU16 env.bdNamErr) (addr parm 16) mem) [] := by
  simp only [GetFileInfo, _ioNamePtr, _ioFDirIndex, _ioResult, hidx, hname, if_true]

/-- The branch of `GetFileInfo` taken for a positive directory index. -/
theorem GetFileInfo_indexed_eq (env : Env) (trap parm : Nat) (mem : Mem)
    (hidx : ¬ toS16 (memoryReadWord (addr parm 28) mem) ≤ 0) :
    GetFileInfo env trap parm mem
      = .exited 1 mem [.fprintf_stderr "GetFileInfo -- ioFDirIndex not yet supported\n"] := by
  simp only [GetFileInfo, _ioFDirIndex, hidx, if_false]

theorem memoryReadWord_lt (a : Nat) (m : Mem) : memoryReadWord a m < 65536 := by
  simp only [memoryReadWord, memoryReadByte]
  omega

theorem resolve_no_probe (env : Env) (trap parm : Nat) (mem : Mem) :
    ∀ c ∈ GetFileInfo_resolve env trap parm mem,
      c.isGetFinderInfo = false ∧ c.isRforkProbe = false := by
  intro c hc
  simp only [GetFileInfo_resolve] at hc
  split at hc
  · simp only [List.mem_cons, List.mem_singleton, List.not_mem_nil, or_false] at hc
    rcases hc with rfl | rfl <;> exact ⟨rfl, rfl⟩
  · simp only [List.mem_singleton] at hc
    subst hc
    exact ⟨rfl, rfl⟩

/-! ## The branches of `SetFileInfo` -/

theorem SetFileInfo_no_name_eq (env : Env) (trap parm : Nat) (mem : Mem)
    (hname : memoryReadLong (addr parm 18) mem = 0) :
    SetFileInfo env trap parm mem
      = .returned (toU16 env.bdNamErr)
          (memoryWriteWord (toU16 env.bdNamErr) (addr parm 16) mem) [] := by
  simp only [SetFileInfo, _ioNamePtr, _ioResult, hname, if_true]

theorem SetFileInfo_stat_failure_eq (env : Env) (trap parm : Nat) (mem : Mem)
    (hname : memoryReadLong (addr parm 18) mem ≠ 0)
    (hstat : (env.stat (SetFileInfo_path env trap parm mem)).rv < 0) :
    SetFileInfo env trap parm mem
      = .returned
          (toU16 (env.macos_error_from_errno
            (env.stat (SetFileInfo_path env trap parm mem)).errno))
          (memoryWriteWord
            (toU16 (env.macos_error_from_errno
              (env.stat (SetFileInfo_path env trap parm mem)).errno))
            (addr parm 16) mem)
          (SetFileInfo_resolve env trap parm mem ++
            [.stat (SetFileInfo_path env trap parm mem),
             .macos_error_from_errno
               (env.stat (SetFileInfo_path env trap parm mem)).errno]) := by
  simp only [SetFileInfo_path, SetFileInfo_resolve, _ioNamePtr, _ioDirID] at hstat ⊢
  simp only [SetFileInfo, _ioNamePtr, _ioDirID, _ioResult, hname, hstat, if_true, if_false]

theorem SetFileInfo_finder_failure_eq (env : Env) (trap parm : Nat) (mem : Mem)
    (hname : memoryReadLong (addr parm 18) mem ≠ 0)
    (hstat : ¬ (env.stat (SetFileInfo_path env trap parm mem)).rv < 0)
    (hfi : toU16 (env.SetFinderInfo (SetFileInfo_path env trap parm mem)
      (memoryPointer (addr parm 32) mem) false) ≠ 0) :
    SetFileInfo env trap parm mem
      = .returned
          (toU16 (env.SetFinderInfo (SetFileInfo_path env trap parm mem)
            (memoryPointer (addr parm 32) mem) false))
          (memoryWriteWord
            (toU16 (env.SetFinderInfo (SetFileInfo_path env trap parm mem)
              (memoryPointer (addr parm 32) mem) false))
            (addr parm 16) mem)
          (SetFileInfo_resolve env trap parm mem ++
            [.stat (SetFileInfo_path env trap parm mem),
             .SetFinderInfo (SetFileInfo_path env trap parm mem) (addr parm 32) false]) := by
  simp only [SetFileInfo_path, SetFileInfo_resolve, _ioNamePtr, _ioDirID] at hstat hfi ⊢
  simp only [SetFileInfo, _ioNamePtr, _ioDirID, _ioResult, hname, hstat, hfi, if_true,
    if_false]

theorem SetFileInfo_dates_eq (env : Env) (trap parm : Nat) (mem : Mem)
    (hname : memoryReadLong (addr parm 18) mem ≠ 0)
    (hstat : ¬ (env.stat (SetFileInfo_path env trap parm mem)).rv < 0)
    (hfi : toU16 (env.SetFinderInfo (SetFileInfo_path env trap parm mem)
      (memoryPointer (addr parm 32) mem) false) = 0) :
    SetFileInfo env trap parm mem
      = .returned
          (toU16 (env.SetFileDates (SetFileInfo_path env trap parm mem)
            (memoryReadLong (addr parm 72) mem) (memoryReadLong (addr parm 76) mem) 0))
          (memoryWriteWord
            (toU16 (env.SetFileDates (SetFileInfo_path env trap parm mem)
              (memoryReadLong (addr parm 72) mem) (memoryReadLong (addr parm 76) mem) 0))
            (addr parm 16) mem)
          (SetFileInfo_resolve env trap parm mem ++
            [.stat (SetFileInfo_path env trap parm mem),
             .SetFinderInfo (SetFileInfo_path env trap parm mem) (addr parm 32) false,
             .SetFileDates (SetFileInfo_path env trap parm mem)
               (memoryReadLong (addr parm 72) mem) (memoryReadLong (addr parm 76) mem) 0]) := by
  simp only [SetFileInfo_path, SetFileInfo_resolve, _ioNamePtr, _ioDirID] at hstat hfi ⊢
  simp only [SetFileInfo, _ioNamePtr, _ioDirID, _ioResult, _ioFlCrDat, _ioFlMdDat, hname,
    hstat, hfi, if_true, if_false]

theorem SetFileInfo_resolve_plain (env : Env) (trap parm : Nat) (mem : Mem) :
    ∀ c ∈ SetFileInfo_resolve env trap parm mem,
      c.isSetFinderInfo = false ∧ c.isSetFileDates = false := by
  intro c hc
  simp only [SetFileInfo_resolve] at hc
  split at hc
  · simp only [List.mem_cons, List.mem_singleton, List.not_mem_nil, or_false] at hc
    rcases hc with rfl | rfl <;> exact ⟨rfl, rfl⟩
  · simp only [List.mem_singleton] at hc
    subst hc
    exact ⟨rfl, rfl⟩

/-! ## Claims -/

/-- C1: with directory index `≤ 0` and name pointer 0, `GetFileInfo` (any trap
value) returns the bad-name code, stores it in the result word at offset 16,
calls no collaborator at all, and leaves every byte outside the result word
as it was; the size longs at offsets 54, 58, 64 and 68 read as before. -/
theorem GetFileInfo_missing_name (env : Env) (trap parm : Nat) (mem : Mem)
    (hidx : toS16 (memoryReadWord (addr parm 28) mem) ≤ 0)
    (hname : memoryReadLong (addr parm 18) mem = 0) :
    (GetFileInfo env trap parm mem).result = some (toU16 env.bdNamErr) ∧
    memoryReadWord (addr parm 16) (GetFileInfo env trap parm mem).mem = toU16 env.bdNamErr ∧
    (GetFileInfo env trap parm mem).trace = [] ∧
    (∀ a, a ≠ addr parm 16 → a ≠ addr parm 16 + 1 →
      (GetFileInfo env trap parm mem).mem a = mem a) ∧
    (∀ off, off = 54 ∨ off = 58 ∨ off = 64 ∨ off = 68 →
      memoryReadLong (addr parm off) (GetFileInfo env trap parm mem).mem
        = memoryReadLong (addr parm off) mem) := by
  have hout : GetFileInfo env trap parm mem
      = .returned (toU16 env.bdNamErr)
          (memoryWriteWord (toU16 env.bdNamErr) (addr parm 16) mem) [] := by
    simp only [GetFileInfo, _ioNamePtr, _ioFDirIndex, _ioResult, hidx, hname, if_true]
  rw [hout]
  refine ⟨rfl, memoryReadWord_memoryWriteWord _ _ _ (toU16_lt _), rfl, ?_, ?_⟩
  · intro a h0 h1
    exact memoryWriteWord_other _ _ _ _ h0 h1
  · intro off hoff
    simp only [Outcome.mem, memoryReadLong, memoryReadByte]
    rw [memoryWriteWord_other, memoryWriteWord_other, memoryWriteWord_other,
      memoryWriteWord_other] <;> (unfold addr; omega)

theorem GetFileInfo_missing_name_witness :
    toS16 (memoryReadWord (addr 1000 28) noNameMem) ≤ 0 ∧
    memoryReadLong (addr 1000 18) noNameMem = 0 ∧
    (GetFileInfo sampleEnv 0xa00c 1000 noNameMem).result = some 65499 ∧
    memoryReadLong (addr 1000 54) (GetFileInfo sampleEnv 0xa00c 1000 noNameMem).mem
      = 0xAAAAAAAA :=
  have h1 : toS16 (memoryReadWord (addr 1000 28) noNameMem) ≤ 0 := by decide
  have h2 : memoryReadLong (addr 1000 18) noNameMem = 0 := by decide
  have h := GetFileInfo_missing_name sampleEnv 0xa00c 1000 noNameMem h1 h2
  ⟨h1, h2, h.1, (h.2.2.2.2 54 (Or.inl rfl)).trans (by decide)⟩

/-- C3: a by-name `GetFileInfo` whose `stat` succeeds on a file whose size fits
in 32 bits leaves the host file size in the longs at offsets 54 and 58, the
result of `rforksize` for the same path (0 when the attribute query fails) in
the longs at 64 and 68, `UnixToMac` of the birth time at 72 and of the
modification time at 76 (as the 32-bit values `memoryWriteLong` stores: the
values themselves whenever `UnixToMac` yields a `uint32_t`), 0 in the result
word at offset 16, and returns 0. -/
theorem GetFileInfo_success_fields (env : Env) (trap parm : Nat) (mem : Mem)
    (hidx : toS16 (memoryReadWord (addr parm 28) mem) ≤ 0)
    (hname : memoryReadLong (addr parm 18) mem ≠ 0)
    (hstat : 0 ≤ (env.stat (GetFileInfo_path env trap parm mem)).rv)
    (hsize0 : 0 ≤ (env.stat (GetFileInfo_path env trap parm mem)).st.st_size)
    (hsize : (env.stat (GetFileInfo_path env trap parm mem)).st.st_size < 4294967296) :
    ((memoryReadLong (addr parm 54) (GetFileInfo env trap parm mem).mem : Nat) : Int)
      = (env.stat (GetFileInfo_path env trap parm mem)).st.st_size ∧
    ((memoryReadLong (addr parm 58) (GetFileInfo env trap parm mem).mem : Nat) : Int)
      = (env.stat (GetFileInfo_path env trap parm mem)).st.st_size ∧
    memoryReadLong (addr parm 64) (GetFileInfo env trap parm mem).mem
      = rforksize env (GetFileInfo_path env trap parm mem) ∧
    memoryReadLong (addr parm 68) (GetFileInfo env trap parm mem).mem
      = rforksize env (GetFileInfo_path env trap parm mem) ∧
    (env.getxattr (GetFileInfo_path env trap parm mem) < 0 →
      rforksize env (GetFileInfo_path env trap parm mem) = 0) ∧
    memoryReadLong (addr parm 72) (GetFileInfo env trap parm mem).mem
      = toU32 (env.UnixToMac (env.stat (GetFileInfo_path env trap parm mem)).st.st_birthtime) ∧
    memoryReadLong (addr parm 76) (GetFileInfo env trap parm mem).mem
      = toU32 (env.UnixToMac (env.stat (GetFileInfo_path env trap parm mem)).st.st_mtime) ∧
    (∀ t : Int, 0 ≤ env.UnixToMac t → env.UnixToMac t < 4294967296 →
      (toU32 (env.UnixToMac t) : Int) = env.UnixToMac t) ∧
    memoryReadWord (addr parm 16) (GetFileInfo env trap parm mem).mem = 0 ∧
    (GetFileInfo env trap parm mem).result = some 0 := by
  rw [GetFileInfo_success_eq env trap parm mem hidx hname (by omega)]
  simp only [Outcome.mem, Outcome.result]
  refine ⟨?_, ?_, fill_ioFlRLgLen _ _ _ _ _, fill_ioFlRPyLen _ _ _ _ _, ?_,
    fill_ioFlCrDat _ _ _ _ _, fill_ioFlMdDat _ _ _ _ _, ?_, fill_result _ _ _ _ _, trivial⟩
  · rw [fill_ioFlLgLen]
    exact toU32_of_range _ hsize0 hsize
  · rw [fill_ioFlPyLen]
    exact toU32_of_range _ hsize0 hsize
  · intro h
    simp [rforksize, h]
  · intro t h0 h1
    exact toU32_of_range _ h0 h1

theorem GetFileInfo_success_fields_witness :
    memoryReadLong (addr 1000 54) (GetFileInfo sampleEnv 0xa00c 1000 sentinelMem).mem = 1024 ∧
    memoryReadLong (addr 1000 58) (GetFileInfo sampleEnv 0xa00c 1000 sentinelMem).mem = 1024 ∧
    memoryReadLong (addr 1000 64) (GetFileInfo sampleEnv 0xa00c 1000 sentinelMem).mem = 256 ∧
    memoryReadLong (addr 1000 68) (GetFileInfo sampleEnv 0xa00c 1000 sentinelMem).mem = 256 ∧
    (GetFileInfo sampleEnv 0xa00c 1000 sentinelMem).result = some 0 :=
  have h := GetFileInfo_success_fields sampleEnv 0xa00c 1000 sentinelMem
    (by decide) (by decide) (by decide) (by decide) (by decide)
  ⟨Int.ofNat.inj h.1, Int.ofNat.inj h.2.1, h.2.2.1, h.2.2.2.1, h.2.2.2.2.2.2.2.2.2⟩

/-- C2: a by-name `GetFileInfo` whose `stat` on the resolved path fails returns
the translated errno code, stores that code in the result word at offset 16,
leaves every byte outside the result word as it was (so every field from
offset 18 to 79 keeps its contents), and calls neither the Finder-info bridge
nor the resource-fork probe. -/
theorem GetFileInfo_stat_failure (env : Env) (trap parm : Nat) (mem : Mem)
    (hidx : toS16 (memoryReadWord (addr parm 28) mem) ≤ 0)
    (hname : memoryReadLong (addr parm 18) mem ≠ 0)
    (hstat : (env.stat (GetFileInfo_path env trap parm mem)).rv < 0) :
    (GetFileInfo env trap parm mem).result
      = some (toU16 (env.macos_error_from_errno
          (env.stat (GetFileInfo_path env trap parm mem)).errno)) ∧
    memoryReadWord (addr parm 16) (GetFileInfo env trap parm mem).mem
      = toU16 (env.macos_error_from_errno
          (env.stat (GetFileInfo_path env trap parm mem)).errno) ∧
    (∀ a, a ≠ addr parm 16 → a ≠ addr parm 16 + 1 →
      (GetFileInfo env trap parm mem).mem a = mem a) ∧
    (∀ off, 18 ≤ off → off < 80 →
      (GetFileInfo env trap parm mem).mem (addr parm off) = mem (addr parm off)) ∧
    (∀ c ∈ (GetFileInfo env trap parm mem).trace,
      c.isGetFinderInfo = false ∧ c.isRforkProbe = false) := by
  rw [GetFileInfo_stat_failure_eq env trap parm mem hidx hname hstat]
  refine ⟨rfl, memoryReadWord_memoryWriteWord _ _ _ (toU16_lt _), ?_, ?_, ?_⟩
  · intro a h0 h1
    exact memoryWriteWord_other _ _ _ _ h0 h1
  · intro off h0 h1
    exact memoryWriteWord_other _ _ _ _ (by unfold addr; omega) (by unfold addr; omega)
  · intro c hc
    simp only [Outcome.trace, List.mem_append, List.mem_cons, List.mem_singleton,
      List.not_mem_nil, or_false] at hc
    rcases hc with hc | rfl | rfl
    · exact resolve_no_probe env trap parm mem c hc
    · exact ⟨rfl, rfl⟩
    · exact ⟨rfl, rfl⟩

theorem GetFileInfo_stat_failure_witness :
    (GetFileInfo missingEnv 0xa00c 1000 sentinelMem).result = some 65493 ∧
    memoryReadWord (addr 1000 16) (GetFileInfo missingEnv 0xa00c 1000 sentinelMem).mem
      = 65493 ∧
    (GetFileInfo missingEnv 0xa00c 1000 sentinelMem).mem (addr 1000 54) = 0xAA :=
  have h := GetFileInfo_stat_failure missingEnv 0xa00c 1000 sentinelMem
    (by decide) (by decide) (by decide)
  ⟨h.1, h.2.1, h.2.2.2.1 54 (by decide) (by decide)⟩

/-- C8: `GetFileInfo` chooses its mode from the word at offset 28 read as a
signed 16-bit integer.  For the words 0 and 0x8000..0xFFFF (values `≤ 0`) it
works by name: it returns a result code, the bad-name code when the name
pointer is 0 and otherwise after querying `stat` on the resolved path.  For
the words 0x0001..0x7FFF (values `> 0`) it prints the diagnostic and exits
with status 1, guest memory untouched and no collaborator called, whatever
the name pointer is. -/
theorem GetFileInfo_mode_selection (env : Env) (trap parm : Nat) (mem : Mem) :
    memoryReadWord (addr parm 28) mem < 65536 ∧
    (memoryReadWord (addr parm 28) mem = 0 ∨ 32768 ≤ memoryReadWord (addr parm 28) mem →
      toS16 (memoryReadWord (addr parm 28) mem) ≤ 0 ∧
      (GetFileInfo env trap parm mem).result.isSome = true ∧
      (memoryReadLong (addr parm 18) mem = 0 →
        (GetFileInfo env trap parm mem).result = some (toU16 env.bdNamErr)) ∧
      (memoryReadLong (addr parm 18) mem ≠ 0 →
        HostCall.stat (GetFileInfo_path env trap parm mem)
          ∈ (GetFileInfo env trap parm mem).trace)) ∧
    (1 ≤ memoryReadWord (addr parm 28) mem ∧ memoryReadWord (addr parm 28) mem ≤ 32767 →
      0 < toS16 (memoryReadWord (addr parm 28) mem) ∧
      GetFileInfo env trap parm mem
        = .exited 1 mem [.fprintf_stderr "GetFileInfo -- ioFDirIndex not yet supported\n"] ∧
      (GetFileInfo env trap parm mem).mem = mem ∧
      (∀ c ∈ (GetFileInfo env trap parm mem).trace, c.isHostAccess = false)) := by
  have hw := memoryReadWord_lt (addr parm 28) mem
  refine ⟨hw, ?_, ?_⟩
  · intro h
    have hidx : toS16 (memoryReadWord (addr parm 28) mem) ≤ 0 := by
      unfold toS16
      split <;> omega
    refine ⟨hidx, ?_, ?_, ?_⟩
    · by_cases hname : memoryReadLong (addr parm 18) mem = 0
      · rw [GetFileInfo_no_name_eq env trap parm mem hidx hname]; rfl
      · by_cases hstat : (env.stat (GetFileInfo_path env trap parm mem)).rv < 0
        · rw [GetFileInfo_stat_failure_eq env trap parm mem hidx hname hstat]; rfl
        · rw [GetFileInfo_success_eq env trap parm mem hidx hname hstat]; rfl
    · intro hname
      rw [GetFileInfo_no_name_eq env trap parm mem hidx hname]; rfl
    · intro hname
      by_cases hstat : (env.stat (GetFileInfo_path env trap parm mem)).rv < 0
      · rw [GetFileInfo_stat_failure_eq env trap parm mem hidx hname hstat]
        simp [Outcome.trace]
      · rw [GetFileInfo_success_eq env trap parm mem hidx hname hstat]
        simp [Outcome.trace]
  · intro h
    have hidx : 0 < toS16 (memoryReadWord (addr parm 28) mem) := by
      unfold toS16
      split <;> omega
    rw [GetFileInfo_indexed_eq env trap parm mem (by omega)]
    refine ⟨hidx, rfl, rfl, ?_⟩
    intro c hc
    simp only [Outcome.trace, List.mem_singleton] at hc
    subst hc
    rfl

theorem GetFileInfo_mode_selection_witness :
    (memoryReadLong (addr 1000 18) indexedMem = 0 ∧
      memoryReadWord (addr 1000 28) indexedMem = 1) ∧
    (GetFileInfo sampleEnv 0xa00c 1000 indexedMem
      = .exited 1 indexedMem
          [.fprintf_stderr "GetFileInfo -- ioFDirIndex not yet supported\n"]) ∧
    memoryReadWord (addr 1000 28) sentinelMem = 0xAAAA ∧
    (GetFileInfo sampleEnv 0xa00c 1000 sentinelMem).result.isSome = true :=
  ⟨⟨by decide, by decide⟩,
   ((GetFileInfo_mode_selection sampleEnv 0xa00c 1000 indexedMem).2.2
      ⟨by decide, by decide⟩).2.1,
   by decide,
   ((GetFileInfo_mode_selection sampleEnv 0xa00c 1000 sentinelMem).2.1
      (Or.inr (by decide))).2.1⟩

/-- C6: whenever `GetFileInfo` or `HGetFileInfo` is called in by-name mode, or
`SetFileInfo` is called, the handler returns, and the value it returns is the
value of the result word at offset 16 of the parameter block after the call,
on every path (bad name, host error, metadata-bridge error, success). -/
theorem handlers_return_result_word (env : Env) (trap parm : Nat) (mem : Mem) :
    (toS16 (memoryReadWord (addr parm 28) mem) ≤ 0 →
      ∃ d0 m t, GetFileInfo env trap parm mem = .returned d0 m t ∧
        memoryReadWord (addr parm 16) m = d0) ∧
    (toS16 (memoryReadWord (addr parm 28) mem) ≤ 0 →
      ∃ d0 m t, HGetFileInfo env trap parm mem = .returned d0 m t ∧
        memoryReadWord (addr parm 16) m = d0) ∧
    (∃ d0 m t, SetFileInfo env trap parm mem = .returned d0 m t ∧
        memoryReadWord (addr parm 16) m = d0) := by
  have hget : toS16 (memoryReadWord (addr parm 28) mem) ≤ 0 →
      ∃ d0 m t, GetFileInfo env trap parm mem = .returned d0 m t ∧
        memoryReadWord (addr parm 16) m = d0 := by
    intro hidx
    by_cases hname : memoryReadLong (addr parm 18) mem = 0
    · exact ⟨_, _, _, GetFileInfo_no_name_eq env trap parm mem hidx hname,
        memoryReadWord_memoryWriteWord _ _ _ (toU16_lt _)⟩
    · by_cases hstat : (env.stat (GetFileInfo_path env trap parm mem)).rv < 0
      · exact ⟨_, _, _, GetFileInfo_stat_failure_eq env trap parm mem hidx hname hstat,
          memoryReadWord_memoryWriteWord _ _ _ (toU16_lt _)⟩
      · exact ⟨_, _, _, GetFileInfo_success_eq env trap parm mem hidx hname hstat,
          fill_result _ _ _ _ _⟩
  refine ⟨hget, hget, ?_⟩
  by_cases hname : memoryReadLong (addr parm 18) mem = 0
  · exact ⟨_, _, _, SetFileInfo_no_name_eq env trap parm mem hname,
      memoryReadWord_memoryWriteWord _ _ _ (toU16_lt _)⟩
  · by_cases hstat : (env.stat (SetFileInfo_path env trap parm mem)).rv < 0
    · exact ⟨_, _, _, SetFileInfo_stat_failure_eq env trap parm mem hname hstat,
        memoryReadWord_memoryWriteWord _ _ _ (toU16_lt _)⟩
    · by_cases hfi : toU16 (env.SetFinderInfo (SetFileInfo_path env trap parm mem)
          (memoryPointer (addr parm 32) mem) false) = 0
      · exact ⟨_, _, _, SetFileInfo_dates_eq env trap parm mem hname hstat hfi,
          memoryReadWord_memoryWriteWord _ _ _ (toU16_lt _)⟩
      · exact ⟨_, _, _, SetFileInfo_finder_failure_eq env trap parm mem hname hstat hfi,
          memoryReadWord_memoryWriteWord _ _ _ (toU16_lt _)⟩

theorem handlers_return_result_word_witness :
    toS16 (memoryReadWord (addr 1000 28) sentinelMem) ≤ 0 ∧
    ∃ d0 m t, GetFileInfo missingEnv 0xa00c 1000 sentinelMem = .returned d0 m t ∧
      memoryReadWord (addr 1000 16) m = d0 :=
  ⟨by decide,
   (handlers_return_result_word missingEnv 0xa00c 1000 sentinelMem).1 (by decide)⟩

/-- C5: `SetFileInfo` returns the code of the first failing step in the order
(1) name pointer 0 gives the bad-name code, (2) a failing `stat` gives the
translated errno code, (3) a non-zero code of `SetFinderInfo` on the area at
offset 32, (4) the code of `SetFileDates` called with the longs at offsets 72
and 76 and reserved argument 0, which is 0 when nothing fails.  That code is
stored in the result word at offset 16.  No collaborator is called when the
name pointer is 0; neither `SetFinderInfo` nor `SetFileDates` is called when
step 1 or 2 fails; otherwise `SetFinderInfo` is called and `SetFileDates` is
called exactly when the code of `SetFinderInfo` is 0. -/
theorem SetFileInfo_first_failing_step (env : Env) (trap parm : Nat) (mem : Mem) :
    (SetFileInfo env trap parm mem).result
      = some (SetFileInfo_firstFailure env trap parm mem) ∧
    memoryReadWord (addr parm 16) (SetFileInfo env trap parm mem).mem
      = SetFileInfo_firstFailure env trap parm mem ∧
    (memoryReadLong (addr parm 18) mem = 0 → (SetFileInfo env trap parm mem).trace = []) ∧
    (memoryReadLong (addr parm 18) mem = 0 ∨
        (env.stat (SetFileInfo_path env trap parm mem)).rv < 0 →
      ∀ c ∈ (SetFileInfo env trap parm mem).trace,
        c.isSetFinderInfo = false ∧ c.isSetFileDates = false) ∧
    (memoryReadLong (addr parm 18) mem ≠ 0 →
        ¬ (env.stat (SetFileInfo_path env trap parm mem)).rv < 0 →
      HostCall.SetFinderInfo (SetFileInfo_path env trap parm mem) (addr parm 32) false
        ∈ (SetFileInfo env trap parm mem).trace ∧
      (HostCall.SetFileDates (SetFileInfo_path env trap parm mem)
          (memoryReadLong (addr parm 72) mem) (memoryReadLong (addr parm 76) mem) 0
          ∈ (SetFileInfo env trap parm mem).trace ↔
        toU16 (env.SetFinderInfo (SetFileInfo_path env trap parm mem)
          (memoryPointer (addr parm 32) mem) false) = 0) ∧
      (∀ c ∈ (SetFileInfo env trap parm mem).trace, c.isSetFileDates = true →
        c = HostCall.SetFileDates (SetFileInfo_path env trap parm mem)
          (memoryReadLong (addr parm 72) mem) (memoryReadLong (addr parm 76) mem) 0 ∧
        toU16 (env.SetFinderInfo (SetFileInfo_path env trap parm mem)
          (memoryPointer (addr parm 32) mem) false) = 0)) := by
  by_cases hname : memoryReadLong (addr parm 18) mem = 0
  · rw [SetFileInfo_no_name_eq env trap parm mem hname]
    simp only [SetFileInfo_firstFailure, hname, if_true, Outcome.result, Outcome.mem,
      Outcome.trace]
    refine ⟨trivial, memoryReadWord_memoryWriteWord _ _ _ (toU16_lt _), fun _ => trivial,
      ?_, ?_⟩
    · intro _ c hc
      simp at hc
    · intro h
      exact absurd rfl h
  · by_cases hstat : (env.stat (SetFileInfo_path env trap parm mem)).rv < 0
    · rw [SetFileInfo_stat_failure_eq env trap parm mem hname hstat]
      simp only [SetFileInfo_firstFailure, hname, hstat, if_true, if_false, Outcome.result,
        Outcome.mem, Outcome.trace]
      refine ⟨trivial, memoryReadWord_memoryWriteWord _ _ _ (toU16_lt _),
        fun h => absurd h (by simp), ?_, ?_⟩
      · intro _ c hc
        simp only [List.mem_append, List.mem_cons, List.mem_singleton, List.not_mem_nil,
          or_false] at hc
        rcases hc with hc | rfl | rfl
        · exact SetFileInfo_resolve_plain env trap parm mem c hc
        · exact ⟨rfl, rfl⟩
        · exact ⟨rfl, rfl⟩
      · intro _ h
        exact absurd trivial h
    · by_cases hfi : toU16 (env.SetFinderInfo (SetFileInfo_path env trap parm mem)
          (memoryPointer (addr parm 32) mem) false) = 0
      · rw [SetFileInfo_dates_eq env trap parm mem hname hstat hfi]
        simp only [SetFileInfo_firstFailure, hname, hstat, hfi, if_true, if_false,
          Outcome.result, Outcome.mem, Outcome.trace, ne_eq, not_true_eq_false]
        refine ⟨trivial, memoryReadWord_memoryWriteWord _ _ _ (toU16_lt _),
          fun h => absurd h (by simp), ?_, ?_⟩
        · intro h
          rcases h with h | h
          · exact absurd h (by simp)
          · exact absurd h (by simp)
        · intro _ _
          refine ⟨by simp, by simp, ?_⟩
          intro c hc hd
          simp only [List.mem_append, List.mem_cons, List.mem_singleton, List.not_mem_nil,
            or_false] at hc
          rcases hc with hc | rfl | rfl | rfl
          · have := (SetFileInfo_resolve_plain env trap parm mem c hc).2
            rw [this] at hd
            exact absurd hd (by simp)
          · exact absurd hd (by simp [HostCall.isSetFileDates])
          · exact absurd hd (by simp [HostCall.isSetFileDates])
          · exact ⟨rfl, trivial⟩
      · rw [SetFileInfo_finder_failure_eq env trap parm mem hname hstat hfi]
        simp only [SetFileInfo_firstFailure, hname, hstat, hfi, if_true, if_false,
          Outcome.result, Outcome.mem, Outcome.trace, ne_eq, not_false_eq_true]
        refine ⟨trivial, memoryReadWord_memoryWriteWord _ _ _ (toU16_lt _),
          fun h => absurd h (by simp), ?_, ?_⟩
        · intro h
          rcases h with h | h
          · exact absurd h (by simp)
          · exact absurd h (by simp)
        · intro _ _
          have hplain := SetFileInfo_resolve_plain env trap parm mem
          refine ⟨by simp, ?_, ?_⟩
          · simp only [List.mem_append, List.mem_cons, List.mem_singleton,
              List.not_mem_nil, or_false, iff_false, not_or]
            refine ⟨fun hc => ?_, by simp, by simp⟩
            have := (hplain _ hc).2
            simp [HostCall.isSetFileDates] at this
          · intro c hc hd
            simp only [List.mem_append, List.mem_cons, List.mem_singleton, List.not_mem_nil,
              or_false] at hc
            rcases hc with hc | rfl | rfl
            · have := (hplain c hc).2
              rw [this] at hd
              exact absurd hd (by simp)
            · exact absurd hd (by simp [HostCall.isSetFileDates])
            · exact absurd hd (by simp [HostCall.isSetFileDates])

theorem SetFileInfo_first_failing_step_witness :
    (SetFileInfo finderFailEnv 0xa00d 1000 sentinelMem).result = some 65500 ∧
    HostCall.SetFinderInfo (SetFileInfo_path finderFailEnv 0xa00d 1000 sentinelMem)
      (addr 1000 32) false ∈ (SetFileInfo finderFailEnv 0xa00d 1000 sentinelMem).trace ∧
    (SetFileInfo sampleEnv 0xa00d 1000 sentinelMem).result = some 0 :=
  ⟨(SetFileInfo_first_failing_step finderFailEnv 0xa00d 1000 sentinelMem).1,
   ((SetFileInfo_first_failing_step finderFailEnv 0xa00d 1000 sentinelMem).2.2.2.2
      (by decide) (by decide)).1,
   (SetFileInfo_first_failing_step sampleEnv 0xa00d 1000 sentinelMem).1⟩

/-- C7: the resource-fork size probe is a total function of the value `rv` of
the extended-attribute query: 0 when `rv < 0`, otherwise `rv` converted to the
`uint32_t` return type, which is `rv` itself for every `rv < 2^32`; the result
is always a size, never an error.  The by-path and by-descriptor entry points
are the same function of `rv`, so they agree whenever their queries return the
same value. -/
theorem rforksize_spec (env : Env) (path : String) (fd : Int) :
    (env.getxattr path < 0 → rforksize env path = 0) ∧
    (0 ≤ env.getxattr path →
      (rforksize env path : Int) = env.getxattr path % 4294967296) ∧
    (0 ≤ env.getxattr path → env.getxattr path < 4294967296 →
      (rforksize env path : Int) = env.getxattr path) ∧
    (env.fgetxattr fd < 0 → rforksize_fd env fd = 0) ∧
    (0 ≤ env.fgetxattr fd →
      (rforksize_fd env fd : Int) = env.fgetxattr fd % 4294967296) ∧
    (0 ≤ env.fgetxattr fd → env.fgetxattr fd < 4294967296 →
      (rforksize_fd env fd : Int) = env.fgetxattr fd) ∧
    (env.getxattr path = env.fgetxattr fd → rforksize env path = rforksize_fd env fd) := by
  refine ⟨?_, ?_, ?_, ?_, ?_, ?_, ?_⟩
  · intro h
    simp [rforksize, h]
  · intro h
    have h' : ¬ env.getxattr path < 0 := by omega
    simp only [rforksize, h', if_false, toU32]
    omega
  · intro h0 h1
    have h' : ¬ env.getxattr path < 0 := by omega
    simp only [rforksize, h', if_false]
    exact toU32_of_range _ h0 h1
  · intro h
    simp [rforksize_fd, h]
  · intro h
    have h' : ¬ env.fgetxattr fd < 0 := by omega
    simp only [rforksize_fd, h', if_false, toU32]
    omega
  · intro h0 h1
    have h' : ¬ env.fgetxattr fd < 0 := by omega
    simp only [rforksize_fd, h', if_false]
    exact toU32_of_range _ h0 h1
  · intro h
    simp only [rforksize, rforksize_fd, h]

theorem rforksize_spec_witness :
    sampleEnv.getxattr "report.txt" = 256 ∧
    (rforksize sampleEnv "report.txt" : Int) = 256 ∧
    rforksize sampleEnv "report.txt" = rforksize_fd sampleEnv 3 :=
  ⟨rfl,
   (rforksize_spec sampleEnv "report.txt" 3).2.2.1 (by decide) (by decide),
   (rforksize_spec sampleEnv "report.txt" 3).2.2.2.2.2.2 rfl⟩

/-- C10: after a successful by-name `GetFileInfo`, whatever the block held
before, the file reference number word at offset 24, the attribute byte at
offset 30, the file id long at offset 48 and the first-block words at offsets
52 and 62 are 0.  `HGetFileInfo` is the same computation, and under trap
0xa20c the long at offset 48 is first read as the directory id handed to
`ExpandPath` and then overwritten with 0. -/
theorem GetFileInfo_success_zero_fields (env : Env) (trap parm : Nat) (mem : Mem)
    (hidx : toS16 (memoryReadWord (addr parm 28) mem) ≤ 0)
    (hname : memoryReadLong (addr parm 18) mem ≠ 0)
    (hstat : 0 ≤ (env.stat (GetFileInfo_path env trap parm mem)).rv) :
    memoryReadWord (addr parm 24) (GetFileInfo env trap parm mem).mem = 0 ∧
    memoryReadByte (addr parm 30) (GetFileInfo env trap parm mem).mem = 0 ∧
    memoryReadLong (addr parm 48) (GetFileInfo env trap parm mem).mem = 0 ∧
    memoryReadWord (addr parm 52) (GetFileInfo env trap parm mem).mem = 0 ∧
    memoryReadWord (addr parm 62) (GetFileInfo env trap parm mem).mem = 0 ∧
    memoryReadWord (addr parm 24) (HGetFileInfo env trap parm mem).mem = 0 ∧
    memoryReadByte (addr parm 30) (HGetFileInfo env trap parm mem).mem = 0 ∧
    memoryReadLong (addr parm 48) (HGetFileInfo env trap parm mem).mem = 0 ∧
    memoryReadWord (addr parm 52) (HGetFileInfo env trap parm mem).mem = 0 ∧
    memoryReadWord (addr parm 62) (HGetFileInfo env trap parm mem).mem = 0 ∧
    (trap = 0xa20c →
      GetFileInfo_path env trap parm mem
        = env.ExpandPath (env.ReadPString mem (memoryReadLong (addr parm 18) mem) true)
            (memoryReadLong (addr parm 48) mem)) := by
  have hpath : trap = 0xa20c →
      GetFileInfo_path env trap parm mem
        = env.ExpandPath (env.ReadPString mem (memoryReadLong (addr parm 18) mem) true)
            (memoryReadLong (addr parm 48) mem) := by
    intro h
    simp only [GetFileInfo_path, _ioNamePtr, _ioDirID, h, if_true]
  simp only [HGetFileInfo]
  rw [GetFileInfo_success_eq env trap parm mem hidx hname (by omega)]
  exact ⟨fill_ioFRefNum _ _ _ _ _, fill_ioFlAttrib _ _ _ _ _, fill_ioFlNum _ _ _ _ _,
    fill_ioFlStBlk _ _ _ _ _, fill_ioFlRStBlk _ _ _ _ _, fill_ioFRefNum _ _ _ _ _,
    fill_ioFlAttrib _ _ _ _ _, fill_ioFlNum _ _ _ _ _, fill_ioFlStBlk _ _ _ _ _,
    fill_ioFlRStBlk _ _ _ _ _, hpath⟩

theorem GetFileInfo_success_zero_fields_witness :
    memoryReadLong (addr 1000 48) sentinelMem = 0xAAAAAAAA ∧
    memoryReadLong (addr 1000 48) (HGetFileInfo sampleEnv 0xa20c 1000 sentinelMem).mem = 0 ∧
    memoryReadWord (addr 1000 24) (GetFileInfo sampleEnv 0xa00c 1000 sentinelMem).mem = 0 :=
  ⟨by decide,
   (GetFileInfo_success_zero_fields sampleEnv 0xa20c 1000 sentinelMem
      (by decide) (by decide) (by decide)).2.2.2.2.2.2.2.1,
   (GetFileInfo_success_zero_fields sampleEnv 0xa00c 1000 sentinelMem
      (by decide) (by decide) (by decide)).1⟩

/-- C9, as the code has it: a successful by-name `GetFileInfo` writes 0 to the
file version byte `ioFlVersNum` at offset 31; the byte `ioFVersNum` at offset
26 is not written and keeps its value (for a parameter block lying inside the
32-bit guest address space). -/
theorem GetFileInfo_success_version_byte (env : Env) (trap parm : Nat) (mem : Mem)
    (hidx : toS16 (memoryReadWord (addr parm 28) mem) ≤ 0)
    (hname : memoryReadLong (addr parm 18) mem ≠ 0)
    (hstat : 0 ≤ (env.stat (GetFileInfo_path env trap parm mem)).rv) :
    memoryReadByte (addr parm 31) (GetFileInfo env trap parm mem).mem = 0 ∧
    (parm + 80 ≤ 4294967296 →
      (GetFileInfo env trap parm mem).mem (addr parm 26) = mem (addr parm 26)) := by
  rw [GetFileInfo_success_eq env trap parm mem hidx hname (by omega)]
  refine ⟨fill_ioFlVersNum _ _ _ _ _, ?_⟩
  intro hblk
  exact fill_untouched _ _ _ _ _ hblk 26 (by omega)

theorem GetFileInfo_success_version_byte_witness :
    memoryReadByte (addr 1000 31) sentinelMem = 0xAA ∧
    memoryReadByte (addr 1000 31) (GetFileInfo sampleEnv 0xa00c 1000 sentinelMem).mem = 0 ∧
    (GetFileInfo sampleEnv 0xa00c 1000 sentinelMem).mem (addr 1000 26) = 0xAA :=
  have h := GetFileInfo_success_version_byte sampleEnv 0xa00c 1000 sentinelMem
    (by decide) (by decide) (by decide)
  ⟨by decide, h.1, h.2 (by decide)⟩

/-- C9 as stated fails: on the sample host, with the block filled with 0xAA,
the call succeeds and the byte at offset 26 is still 0xAA afterwards. -/
theorem GetFileInfo_offset26_not_cleared :
    (GetFileInfo sampleEnv 0xa00c 1000 sentinelMem).result = some 0 ∧
    memoryReadByte (addr 1000 26) sentinelMem = 0xAA ∧
    memoryReadByte (addr 1000 26) (GetFileInfo sampleEnv 0xa00c 1000 sentinelMem).mem ≠ 0 := by
  decide

/-- C4, as the code has it: after a successful by-name `GetFileInfo` (parameter
block inside the 32-bit guest address space) the 16 bytes at offsets 32
through 47 are the first 16 bytes the Finder-info bridge stored for the path;
the 16 bytes at offsets 48 through 63 are not Finder info but the fields the
handler writes afterwards: file id 0 at 48, first block 0 at 52, the file size
at 54 and 58, resource first block 0 at 62. -/
theorem GetFileInfo_success_finder_info (env : Env) (trap parm : Nat) (mem : Mem)
    (hidx : toS16 (memoryReadWord (addr parm 28) mem) ≤ 0)
    (hname : memoryReadLong (addr parm 18) mem ≠ 0)
    (hstat : 0 ≤ (env.stat (GetFileInfo_path env trap parm mem)).rv)
    (hblk : parm + 80 ≤ 4294967296) :
    (∀ i b, i < 16 →
      (env.GetFinderInfo (GetFileInfo_path env trap parm mem) false).info.get? i = some b →
      memoryReadByte (addr parm (32 + i)) (GetFileInfo env trap parm mem).mem = b % 256) ∧
    memoryReadLong (addr parm 48) (GetFileInfo env trap parm mem).mem = 0 ∧
    memoryReadWord (addr parm 52) (GetFileInfo env trap parm mem).mem = 0 ∧
    memoryReadLong (addr parm 54) (GetFileInfo env trap parm mem).mem
      = toU32 (env.stat (GetFileInfo_path env trap parm mem)).st.st_size ∧
    memoryReadLong (addr parm 58) (GetFileInfo env trap parm mem).mem
      = toU32 (env.stat (GetFileInfo_path env trap parm mem)).st.st_size ∧
    memoryReadWord (addr parm 62) (GetFileInfo env trap parm mem).mem = 0 := by
  rw [GetFileInfo_success_eq env trap parm mem hidx hname (by omega)]
  refine ⟨?_, fill_ioFlNum _ _ _ _ _, fill_ioFlStBlk _ _ _ _ _, fill_ioFlLgLen _ _ _ _ _,
    fill_ioFlPyLen _ _ _ _ _, fill_ioFlRStBlk _ _ _ _ _⟩
  intro i b hi hb
  simp only [Outcome.mem, memoryReadByte]
  rw [fill_finderInfo _ _ _ _ _ hblk i hi]
  simp only [storeBytes, Nat.le_add_right, if_true, Nat.add_sub_cancel_left, hb]
  omega

theorem GetFileInfo_success_finder_info_witness :
    (sampleEnv.GetFinderInfo (GetFileInfo_path sampleEnv 0xa00c 1000 sentinelMem)
      false).info.get? 15 = some 0 ∧
    memoryReadByte (addr 1000 (32 + 15)) (GetFileInfo sampleEnv 0xa00c 1000 sentinelMem).mem
      = 0 ∧
    memoryReadLong (addr 1000 54) (GetFileInfo sampleEnv 0xa00c 1000 sentinelMem).mem
      = 1024 :=
  have h := GetFileInfo_success_finder_info sampleEnv 0xa00c 1000 sentinelMem
    (by decide) (by decide) (by decide) (by decide)
  ⟨by decide, h.1 15 0 (by decide) (by decide), h.2.2.2.1⟩

/-- C4 as stated fails: on the sample host the bridge supplies 32 zero bytes
for the 1024-byte file, the call succeeds, and the byte at offset 56 (inside
offsets 32 through 63) is 4, a byte of the data-fork length 0x00000400. -/
theorem GetFileInfo_finder_area_overwritten :
    (sampleEnv.GetFinderInfo (GetFileInfo_path sampleEnv 0xa00c 1000 sentinelMem)
      false).info = List.replicate 32 0 ∧
    (GetFileInfo sampleEnv 0xa00c 1000 sentinelMem).result = some 0 ∧
    memoryReadByte (addr 1000 56) (GetFileInfo sampleEnv 0xa00c 1000 sentinelMem).mem = 4 ∧
    ¬ (∀ i, i < 32 →
      memoryReadByte (addr 1000 (32 + i)) (GetFileInfo sampleEnv 0xa00c 1000 sentinelMem).mem
        = (List.replicate 32 0).getD i 0) := by
  refine ⟨by decide, by decide, by decide, ?_⟩
  intro h
  exact absurd (h 24 (by decide)) (by decide)

end OSFileInfo
